import Mathlib

/-!
Verification development for the `station-emulator` OCPP 2.0 client
(`src/client.rs`).  The event handlers `on_open`, `on_message` and
`on_timeout` are shallowly embedded as pure Lean functions over an
explicit store state; message builders (`requests.rs` / `responses.rs`)
are represented structurally by constructors carrying exactly the
arguments the client passes to them, and the key/value storage module
(`storage.rs`, interface given in the design document) is modelled by
association lists.
-/

namespace StationEmulator

/-- Association-list lookup, newest binding first. -/
def alookup {κ α : Type} [DecidableEq κ] (k : κ) : List (κ × α) → Option α
  | [] => none
  | (k', v) :: t => if k' = k then some v else alookup k t

/-- Insert (overwrite) a binding; newest binding shadows older ones. -/
def ainsert {κ α : Type} [DecidableEq κ] (k : κ) (v : α) (l : List (κ × α)) :
    List (κ × α) :=
  (k, v) :: l

/-- Remove every binding for a key (models hash-map deletion). -/
def aerase {κ α : Type} [DecidableEq κ] (k : κ) : List (κ × α) → List (κ × α)
  | [] => []
  | (k', v) :: t => if k' = k then aerase k t else (k', v) :: aerase k t

/-- Fresh message ids: the client draws a fresh UUID (`Uuid::new_v4`) for
every generated message/transaction id.  We model the UUID supply by a
counter threaded through the handlers; `genId n` is the `n`-th fresh id. -/
def genId (n : Nat) : String := "u" ++ toString n

/-- An outbound message as produced by a builder in `requests.rs`: the
constructor records the builder called and the arguments the client passes
(`client.rs` lines 81, 225, 236, 248, 277, 286, 299, 338, 399). -/
inductive OutMsg : Type where
  | bootNotification (id : String) (reason model vendorName : String)
      (serialNumber : Option String)
  | heartbeat (id : String)
  | statusNotification (id : String) (evseId connectorId : Nat) (status : String)
  | transactionEvent (id : String) (transactionId eventType trigger : String)
      (chargingState : Option String) (remoteStartId : Option Nat)
      (reason : Option String)
deriving DecidableEq

/-- The message id field (serialized as element 1 of the wire frame). -/
def OutMsg.msgId : OutMsg → String
  | .bootNotification id _ _ _ _ => id
  | .heartbeat id => id
  | .statusNotification id _ _ _ => id
  | .transactionEvent id _ _ _ _ _ _ => id

/-- The action field (serialized as element 2 of the wire frame); read back
by the CALLRESULT arm of `on_message` (`client.rs` line 324). -/
def OutMsg.action : OutMsg → String
  | .bootNotification .. => "BootNotification"
  | .heartbeat .. => "Heartbeat"
  | .statusNotification .. => "StatusNotification"
  | .transactionEvent .. => "TransactionEvent"

/-- One item of a SetVariables response (`client.rs` lines 129-146). -/
structure SetVarItem : Type where
  component : String
  name : String
  attributeStatus : String
deriving DecidableEq

/-- One item of a GetVariables response (`client.rs` lines 165-180). -/
structure GetVarItem : Type where
  attributeStatus : String
  component : String
  name : String
  attributeValue : Option String
deriving DecidableEq

/-- A response sent directly on the socket by a builder in `responses.rs`
(`client.rs` lines 149, 183, 213, 266). -/
inductive Response : Type where
  | setVariables (id : String) (items : List SetVarItem)
  | getVariables (id : String) (items : List GetVarItem)
  | requestStartTransaction (id : String) (remoteStartId : Nat) (status : String)
  | requestStopTransaction (id : String) (status : String)
deriving DecidableEq

/-- Observable side effects of one handler invocation: a direct
`self.out.send` of a response, a queue-fetch transmission of a queued
message, and the arming of the two reactor timers. -/
inductive Effect : Type where
  | send (r : Response)
  | transmit (m : OutMsg)
  | armHeartbeat (millis : Nat)
  | armQueueFetch
deriving DecidableEq

/-- The decoded fields of an inbound Call / CallResult payload, as the
handlers extract them from the parsed JSON.  Absent numeric fields are
`none` (`as_number()` returning `None`); `transactionId` and `status` are
the `to_string()` of the addressed JSON member (`"null"` when absent). -/
structure Payload : Type where
  remoteStartId : Option Nat
  evseId : Option Nat
  transactionId : String
  status : String
  interval : Option Nat
  setVariableData : List (String × String)
  getVariableData : List (String × String)
deriving DecidableEq

/-- An inbound frame after the router's parsing steps (`client.rs` lines
94-111).  `badJson` is a text that `json::parse` rejects; `nonNumericTypeId`
is a parsed frame whose element 0 has no `u8` value. -/
inductive InMsg : Type where
  | badJson
  | nonNumericTypeId
  | call (id : String) (action : String) (payload : Payload)
  | callResult (id : String) (payload : Payload)
  | callError (id code desc details : String)
  | unknownTypeId (n : Nat)
deriving DecidableEq

/-- The session store.  Modelled from the spec: `storage.rs` is outside the
given source; the design document (§6) specifies it as a key/value store
with a pending-message map, a FIFO queue, a last-sent marker, a transaction
map and per-connector statuses.  `get_transaction` returns an empty string
as the absence sentinel, which we render as `Option`; `HEARTBEAT_INTERVAL`
is the client's session-scoped static (0 before boot acceptance). -/
structure StoreState : Type where
  messages : List (String × OutMsg)
  queue : List OutMsg
  lastSent : Option (String × Nat)
  transactions : List (String × Payload)
  connectors : List ((Nat × Nat) × String)
  heartbeatInterval : Nat
deriving DecidableEq

/-- Modelled from the spec: `storage::get_connector(e, c).status`; a
connector never written reads as the empty status. -/
def getConnectorStatus (s : StoreState) (e c : Nat) : String :=
  (alookup (e, c) s.connectors).getD ""

/-- The empty store at process start. -/
def initStore : StoreState :=
  { messages := [], queue := [], lastSent := none, transactions := [],
    connectors := [], heartbeatInterval := 0 }

/-- Result of `on_message`: either the updated store, the updated id
counter and the emitted effects, or a `panic!` aborting the process. -/
inductive Outcome : Type where
  | ok (s : StoreState) (ids : Nat) (eff : List Effect)
  | panic (msg : String)
deriving DecidableEq

/-- Constant `QUEUE_MESSAGE_EXPIRATION` (`client.rs` line 33), in seconds. -/
def QUEUE_MESSAGE_EXPIRATION : Nat := 10

/-- Attribute status assigned to one SetVariables item
(`client.rs` lines 136-144). -/
def setVariableStatus (component variableName : String) : String :=
  if component = "AuthCtrlr" then
    if variableName = "AuthorizeRemoteStart" then "Rejected"
    else "UnknownVariable"
  else "UnknownComponent"

/-- The response items built by the SetVariables loop
(`client.rs` lines 124-147), one per input item, in input order. -/
def setVariablesItems : List (String × String) → List SetVarItem
  | [] => []
  | (c, v) :: rest =>
    { component := c, name := v, attributeStatus := setVariableStatus c v }
      :: setVariablesItems rest

/-- The response items built by the GetVariables loop
(`client.rs` lines 160-181); `gv` is `components::get_variable`. -/
def getVariablesItems (gv : String → String → String × Option String) :
    List (String × String) → List GetVarItem
  | [] => []
  | (c, v) :: rest =>
    { attributeStatus := (gv c v).1, component := c, name := v,
      attributeValue := (gv c v).2 } :: getVariablesItems gv rest

/-- SetVariables arm (`client.rs` lines 117-152): build one result item per
input item and send the response; no store mutation. -/
def handleSetVariables (s : StoreState) (ids : Nat) (id : String)
    (p : Payload) : Outcome :=
  .ok s ids [.send (.setVariables id (setVariablesItems p.setVariableData))]

/-- GetVariables arm (`client.rs` lines 153-186). -/
def handleGetVariables (gv : String → String → String × Option String)
    (s : StoreState) (ids : Nat) (id : String) (p : Payload) : Outcome :=
  .ok s ids [.send (.getVariables id (getVariablesItems gv p.getVariableData))]

/-- RequestStartTransaction arm (`client.rs` lines 187-253).  Missing
`remoteStartId` or `evseId` panics; `evse_id - 1` on a `usize` underflows
(debug-build abort) when `evseId = 0`.  The connector consulted is
`(evseId - 1, 0)`, but on acceptance the status written is for the
hard-coded pair `(0, 0)` (line 231). -/
def handleStartTx (s : StoreState) (ids : Nat) (id : String)
    (p : Payload) : Outcome :=
  match p.remoteStartId with
  | none => .panic "Parsed message has no value."
  | some rsid =>
    let txId := genId ids
    match p.evseId with
    | none => .panic "Parsed EVSE ID has no value."
    | some ev =>
      if ev = 0 then .panic "attempt to subtract with overflow"
      else if getConnectorStatus s (ev - 1) 0 ≠ "Available" then
        .ok s (ids + 1) [.send (.requestStartTransaction id rsid "Rejected")]
      else
        let snId := genId (ids + 1)
        let sn := OutMsg.statusNotification snId 1 1 "Occupied"
        let teSId := genId (ids + 2)
        let teS := OutMsg.transactionEvent teSId txId "Started" "RemoteStart"
          none (some rsid) none
        let teUId := genId (ids + 3)
        let teU := OutMsg.transactionEvent teUId txId "Updated" "CablePluggedIn"
          (some "Charging") none none
        .ok { s with
              messages := ainsert teUId teU (ainsert teSId teS
                (ainsert snId sn s.messages)),
              queue := s.queue ++ [sn, teS, teU],
              transactions := ainsert txId p s.transactions,
              connectors := ainsert (0, 0) "Occupied" s.connectors }
          (ids + 4)
          [.send (.requestStartTransaction id rsid "Accepted")]

/-- RequestStopTransaction arm (`client.rs` lines 254-306). -/
def handleStopTx (s : StoreState) (ids : Nat) (id : String)
    (p : Payload) : Outcome :=
  let txId := p.transactionId
  match alookup txId s.transactions with
  | none => .ok s ids [.send (.requestStopTransaction id "Rejected")]
  | some _ =>
    let teUId := genId ids
    let teU := OutMsg.transactionEvent teUId txId "Updated" "RemoteStop"
      none none none
    let teEId := genId (ids + 1)
    let teE := OutMsg.transactionEvent teEId txId "Ended" "RemoteStop"
      none none (some "Remote")
    let snId := genId (ids + 2)
    let sn := OutMsg.statusNotification snId 1 1 "Available"
    .ok { s with
          messages := ainsert snId sn (ainsert teEId teE
            (ainsert teUId teU s.messages)),
          queue := s.queue ++ [teU, teE, sn],
          transactions := aerase txId s.transactions,
          connectors := ainsert (0, 0) "Available" s.connectors }
      (ids + 3)
      [.send (.requestStopTransaction id "Accepted")]

/-- CALLRESULT arm (`client.rs` lines 310-360): correlate by id; an unknown
id or a non-BootNotification action is ignored; on a BootNotification
CallResult with status `Accepted` the connector is set Available, a
StatusNotification is enqueued, `HEARTBEAT_INTERVAL` is set to
`interval * 1000` milliseconds and the heartbeat timer is armed; a missing
`interval` panics. -/
def handleCallResult (s : StoreState) (ids : Nat) (id : String)
    (p : Payload) : Outcome :=
  match alookup id s.messages with
  | none => .ok s ids []
  | some m =>
    if m.action = "BootNotification" then
      if p.status = "Accepted" then
        match p.interval with
        | none => .panic "Parsed message has no value."
        | some n =>
          let snId := genId ids
          let sn := OutMsg.statusNotification snId 1 1 "Available"
          .ok { s with
                messages := ainsert snId sn s.messages,
                queue := s.queue ++ [sn],
                connectors := ainsert (0, 0) "Available" s.connectors,
                heartbeatInterval := n * 1000 }
            (ids + 1)
            [.armHeartbeat (n * 1000)]
      else .ok s ids []
    else .ok s ids []

/-- Handler `on_message` (`client.rs` lines 93-374), after the router's parsing of
the inbound text into an `InMsg`.  `gv` is `components::get_variable`. -/
def on_message (gv : String → String → String × Option String)
    (s : StoreState) (ids : Nat) : InMsg → Outcome
  | .badJson => .panic "Error during parsing"
  | .nonNumericTypeId => .panic "Parsed message has no value."
  | .call id action p =>
    if action = "SetVariables" then handleSetVariables s ids id p
    else if action = "GetVariables" then handleGetVariables gv s ids id p
    else if action = "RequestStartTransaction" then handleStartTx s ids id p
    else if action = "RequestStopTransaction" then handleStopTx s ids id p
    else .ok s ids []
  | .callResult id p => handleCallResult s ids id p
  | .callError _ _ _ _ => .ok s ids []
  | .unknownTypeId _ => .ok s ids []

/-- HEARTBEAT timeout arm (`client.rs` lines 395-411): store and enqueue a
fresh Heartbeat Call, then rearm the timer with the current interval. -/
def on_timeout_heartbeat (s : StoreState) (ids : Nat) :
    StoreState × Nat × List Effect :=
  let mId := genId ids
  let m := OutMsg.heartbeat mId
  ({ s with messages := ainsert mId m s.messages, queue := s.queue ++ [m] },
   ids + 1, [.armHeartbeat s.heartbeatInterval])

/-- The QUEUE_FETCH timeout arm (`client.rs` lines 412-447): with a non-empty
queue, if no message was ever sent or the last sent one is older than the
expiry window (strictly: `timestamp + 10 < now`), pop and transmit the head
and record it as last sent; always rearm the fetch timer. -/
def on_timeout_queue_fetch (now : Nat) (s : StoreState) (ids : Nat) :
    StoreState × Nat × List Effect :=
  let lastSentExist : Bool := s.lastSent.isSome
  let lastSentExpired : Bool :=
    match s.lastSent with
    | some (_, ts) => decide (ts + QUEUE_MESSAGE_EXPIRATION < now)
    | none => true
  match s.queue with
  | [] => (s, ids, [.armQueueFetch])
  | m :: t =>
    if !lastSentExist || lastSentExpired then
      ({ s with queue := t, lastSent := some (m.msgId, now) }, ids,
       [.transmit m, .armQueueFetch])
    else (s, ids, [.armQueueFetch])

/-- Handler `on_open` (`client.rs` lines 56-88): arm the queue-fetch timer, resolve
the station identity from the environment (empty/unset falls back to the
defaults), then store and enqueue the BootNotification Call. -/
def on_open (envModel envVendor envSerial : Option String)
    (s : StoreState) (ids : Nat) : StoreState × Nat × List Effect :=
  let model := match envModel with
    | some v => if v = "" then "Model" else v
    | none => "Model"
  let vendorName := match envVendor with
    | some v => if v = "" then "Vendor name" else v
    | none => "Vendor name"
  let mId := genId ids
  let m := OutMsg.bootNotification mId "PowerUp" model vendorName envSerial
  ({ s with messages := ainsert mId m s.messages, queue := s.queue ++ [m] },
   ids + 1, [.armQueueFetch])

/-- A session configuration: the store plus the fresh-id counter. -/
abbrev Config : Type := StoreState × Nat

/-- A reactor event: one inbound frame or one timer firing (`now` is the
wall-clock second read by the queue-fetch arm). -/
inductive Event : Type where
  | message (m : InMsg)
  | heartbeatTimeout
  | queueFetchTimeout (now : Nat)
deriving DecidableEq

/-- An `ok` outcome continues the session; a panic terminates it. -/
def outcomeToStep : Outcome → Option (Config × List Effect)
  | .ok s ids eff => some ((s, ids), eff)
  | .panic _ => none

/-- One reactor turn; `none` is a `panic!` terminating the process. -/
def stepFn (gv : String → String → String × Option String)
    (c : Config) : Event → Option (Config × List Effect)
  | .message m => outcomeToStep (on_message gv c.1 c.2 m)
  | .heartbeatTimeout =>
    let r := on_timeout_heartbeat c.1 c.2
    some ((r.1, r.2.1), r.2.2)
  | .queueFetchTimeout now =>
    let r := on_timeout_queue_fetch now c.1 c.2
    some ((r.1, r.2.1), r.2.2)

/-- The configuration right after `on_open` ran on the fresh process. -/
def openConfig (envModel envVendor envSerial : Option String) : Config :=
  ((on_open envModel envVendor envSerial initStore 0).1,
   (on_open envModel envVendor envSerial initStore 0).2.1)

/-- Configurations reachable in a session: `on_open` runs once on the empty
store, then any sequence of non-panicking reactor turns. -/
inductive Reachable (gv : String → String → String × Option String)
    (envModel envVendor envSerial : Option String) : Config → Prop where
  | init : Reachable gv envModel envVendor envSerial
      (openConfig envModel envVendor envSerial)
  | step {c c' : Config} {e : Event} {eff : List Effect} :
      Reachable gv envModel envVendor envSerial c →
      stepFn gv c e = some (c', eff) →
      Reachable gv envModel envVendor envSerial c'

/-- An arbitrary capability table used to instantiate examples; the
GetVariables arm is not exercised by any of them. -/
def gvAny : String → String → String × Option String :=
  fun _ _ => ("UnknownComponent", none)

/-- A payload with every optional field absent (`"null"` for the string
renderings of absent JSON members). -/
def payload0 : Payload :=
  { remoteStartId := none, evseId := none, transactionId := "null",
    status := "null", interval := none, setVariableData := [],
    getVariableData := [] }

/-- The pending BootNotification used by the boot-response examples. -/
def bootMsgEx : OutMsg :=
  OutMsg.bootNotification "b" "PowerUp" "Model" "Vendor name" none

/-- A store with exactly the boot Call pending. -/
def bootStoreEx : StoreState := { initStore with messages := [("b", bootMsgEx)] }

/-- Every message sitting in the delivery queue has a correlation record in
the pending-message map under its own id. -/
def QueueCorrelated (s : StoreState) : Prop :=
  ∀ m ∈ s.queue, (alookup m.msgId s.messages).isSome = true

/-- A duplicate-deliverable Accepted boot CallResult carrying interval `n`,
addressed at the id of the initial BootNotification Call. -/
def c5Event (n : Nat) : Event :=
  .message (.callResult (genId 0)
    { payload0 with status := "Accepted", interval := some n })

/-- The configuration after the first boot CallResult. -/
def c5Step1 : Config :=
  match stepFn gvAny (openConfig none none none) (c5Event 30) with
  | some (c, _) => c
  | none => openConfig none none none

/-- The configuration after the duplicated boot CallResult. -/
def c5Step2 : Config :=
  match stepFn gvAny c5Step1 (c5Event 60) with
  | some (c, _) => c
  | none => c5Step1

lemma setVariablesItems_eq_map (l : List (String × String)) :
    setVariablesItems l =
      l.map (fun cv => ⟨cv.1, cv.2, setVariableStatus cv.1 cv.2⟩) := by
  induction l with
  | nil => rfl
  | cons hd tl ih => cases hd; simp [setVariablesItems, ih]

/-- C8: for every SetVariables Call, the response carries exactly one item
per input item, in input order, each with the item's component, variable
name and the attribute status given by: `AuthCtrlr`/`AuthorizeRemoteStart`
→ `Rejected`; `AuthCtrlr`/other → `UnknownVariable`; other component →
`UnknownComponent`.  The store is untouched. -/
theorem C8_set_variables (gv : String → String → String × Option String)
    (s : StoreState) (ids : Nat) (id : String) (p : Payload) :
    on_message gv s ids (.call id "SetVariables" p) =
      .ok s ids [.send (.setVariables id (setVariablesItems p.setVariableData))] ∧
    setVariablesItems p.setVariableData =
      p.setVariableData.map (fun cv => ⟨cv.1, cv.2, setVariableStatus cv.1 cv.2⟩) ∧
    setVariableStatus "AuthCtrlr" "AuthorizeRemoteStart" = "Rejected" ∧
    (∀ v, v ≠ "AuthorizeRemoteStart" →
      setVariableStatus "AuthCtrlr" v = "UnknownVariable") ∧
    (∀ c v, c ≠ "AuthCtrlr" → setVariableStatus c v = "UnknownComponent") := by
  refine ⟨rfl, setVariablesItems_eq_map _, rfl, ?_, ?_⟩
  · intro v hv
    simp [setVariableStatus, hv]
  · intro c v hc
    simp [setVariableStatus, hc]

/-- Witness for C8 at the spec's three example items. -/
theorem C8_set_variables_witness :
    on_message gvAny initStore 0 (.call "m" "SetVariables"
        { payload0 with setVariableData :=
            [("AuthCtrlr", "AuthorizeRemoteStart"), ("AuthCtrlr", "Unknown"),
             ("Other", "X")] }) =
      .ok initStore 0 [.send (.setVariables "m"
        [⟨"AuthCtrlr", "AuthorizeRemoteStart", "Rejected"⟩,
         ⟨"AuthCtrlr", "Unknown", "UnknownVariable"⟩,
         ⟨"Other", "X", "UnknownComponent"⟩])] ∧
    setVariableStatus "AuthCtrlr" "Unknown" = "UnknownVariable" ∧
    setVariableStatus "Other" "X" = "UnknownComponent" := by
  refine ⟨?_, ?_, ?_⟩
  · rw [(C8_set_variables gvAny initStore 0 "m" _).1]
    decide
  · exact (C8_set_variables gvAny initStore 0 "m" payload0).2.2.2.1
      "Unknown" (by decide)
  · exact (C8_set_variables gvAny initStore 0 "m" payload0).2.2.2.2
      "Other" "X" (by decide)

/-- C7: a RequestStartTransaction Call addressed at a connector that is not
`Available` is answered `Rejected` and nothing else happens: the store
(connectors, transactions, queue, pending map) is returned unchanged and
the only effect is the direct response send. -/
theorem C7_start_rejected (gv : String → String → String × Option String)
    (s : StoreState) (ids : Nat) (id : String) (p : Payload)
    (rsid ev : Nat)
    (hr : p.remoteStartId = some rsid) (he : p.evseId = some ev)
    (hev : 1 ≤ ev)
    (hst : getConnectorStatus s (ev - 1) 0 ≠ "Available") :
    on_message gv s ids (.call id "RequestStartTransaction" p) =
      .ok s (ids + 1) [.send (.requestStartTransaction id rsid "Rejected")] := by
  have hev0 : ¬ ev = 0 := by omega
  simp [on_message, handleStartTx, hr, he, hev0, hst]

/-- Witness for C7: an `Occupied` connector addressed by `evseId = 1`. -/
theorem C7_start_rejected_witness :
    on_message gvAny
        { initStore with connectors := [((0, 0), "Occupied")] } 0
        (.call "m" "RequestStartTransaction"
          { payload0 with remoteStartId := some 7, evseId := some 1 }) =
      .ok { initStore with connectors := [((0, 0), "Occupied")] } 1
        [.send (.requestStartTransaction "m" 7 "Rejected")] :=
  C7_start_rejected gvAny _ 0 "m" _ 7 1 rfl rfl (by decide) (by decide)

/-- C6 (recorded defect): the four decode-failure inputs named by the claim
each make `on_message` panic — terminate the process — instead of being
handled as a recoverable per-frame failure: unparseable JSON, a frame whose
first element is not a numeric typeId, and a RequestStartTransaction
payload missing `remoteStartId` resp. `evseId`. -/
theorem C6_decode_failures_panic :
    on_message gvAny initStore 0 .badJson = .panic "Error during parsing" ∧
    on_message gvAny initStore 0 .nonNumericTypeId =
      .panic "Parsed message has no value." ∧
    on_message gvAny initStore 0 (.call "m" "RequestStartTransaction" payload0) =
      .panic "Parsed message has no value." ∧
    on_message gvAny initStore 0 (.call "m" "RequestStartTransaction"
        { payload0 with remoteStartId := some 7 }) =
      .panic "Parsed EVSE ID has no value." := by
  exact ⟨rfl, rfl, by decide, by decide⟩

/-- Deleting a key removes every binding for it. -/
lemma alookup_aerase {α : Type} (k : String) (l : List (String × α)) :
    alookup k (aerase k l) = none := by
  induction l with
  | nil => rfl
  | cons hd tl ih =>
    cases hd with
    | mk k' v =>
      by_cases h : k' = k
      · simp [aerase, h, ih]
      · simp [aerase, alookup, h, ih]

/-- C1 (amended): a RequestStartTransaction Call whose addressed connector
(`evseId` translated to zero-based, sub-connector 0) is `Available` is
answered `Accepted` with the request's `remoteStartId`; the status written
`Occupied` is that of the hard-coded store connector `(0, 0)` — which
coincides with the addressed connector only when `evseId = 1`; a
Transaction record keyed by the freshly generated id stores the original
payload; and exactly one StatusNotification plus the `Started`/`RemoteStart`
and `Updated`/`CablePluggedIn` TransactionEvents are enqueued, `Started`
before `Updated`. -/
theorem C1_start_accepted (gv : String → String → String × Option String)
    (s : StoreState) (ids : Nat) (id : String) (p : Payload)
    (rsid ev : Nat)
    (hr : p.remoteStartId = some rsid) (he : p.evseId = some ev)
    (hev : 1 ≤ ev)
    (hst : getConnectorStatus s (ev - 1) 0 = "Available") :
    on_message gv s ids (.call id "RequestStartTransaction" p) =
      .ok { s with
            messages := ainsert (genId (ids + 3))
                (OutMsg.transactionEvent (genId (ids + 3)) (genId ids)
                  "Updated" "CablePluggedIn" (some "Charging") none none)
              (ainsert (genId (ids + 2))
                (OutMsg.transactionEvent (genId (ids + 2)) (genId ids)
                  "Started" "RemoteStart" none (some rsid) none)
              (ainsert (genId (ids + 1))
                (OutMsg.statusNotification (genId (ids + 1)) 1 1 "Occupied")
                s.messages)),
            queue := s.queue ++
              [OutMsg.statusNotification (genId (ids + 1)) 1 1 "Occupied",
               OutMsg.transactionEvent (genId (ids + 2)) (genId ids)
                 "Started" "RemoteStart" none (some rsid) none,
               OutMsg.transactionEvent (genId (ids + 3)) (genId ids)
                 "Updated" "CablePluggedIn" (some "Charging") none none],
            transactions := ainsert (genId ids) p s.transactions,
            connectors := ainsert (0, 0) "Occupied" s.connectors }
        (ids + 4)
        [.send (.requestStartTransaction id rsid "Accepted")] := by
  have hev0 : ¬ ev = 0 := by omega
  simp [on_message, handleStartTx, hr, he, hev0, hst]

/-- Counterexample to C1 as stated: with `evseId = 2` the addressed
connector `(1, 0)` is `Available`, the handler answers `Accepted`, yet the
addressed connector's status is still `Available` afterwards (the handler
hard-codes the written connector as `(0, 0)`, `client.rs` line 231). -/
theorem C1_counterexample :
    (match on_message gvAny
        { initStore with connectors := [((1, 0), "Available")] } 0
        (.call "m" "RequestStartTransaction"
          { payload0 with remoteStartId := some 5, evseId := some 2 }) with
     | .ok s _ eff => (getConnectorStatus s 1 0, eff)
     | .panic _ => ("", [])) =
      ("Available", [.send (.requestStartTransaction "m" 5 "Accepted")]) := by
  decide

/-- Witness for C1 at `evseId = 1`, where the addressed connector and the
written connector coincide. -/
theorem C1_start_accepted_witness :
    on_message gvAny { initStore with connectors := [((0, 0), "Available")] } 0
      (.call "m" "RequestStartTransaction"
        { payload0 with remoteStartId := some 5, evseId := some 1 }) =
      .ok { { initStore with connectors := [((0, 0), "Available")] } with
            messages := ainsert (genId 3)
                (OutMsg.transactionEvent (genId 3) (genId 0)
                  "Updated" "CablePluggedIn" (some "Charging") none none)
              (ainsert (genId 2)
                (OutMsg.transactionEvent (genId 2) (genId 0)
                  "Started" "RemoteStart" none (some 5) none)
              (ainsert (genId 1)
                (OutMsg.statusNotification (genId 1) 1 1 "Occupied") [])),
            queue :=
              [OutMsg.statusNotification (genId 1) 1 1 "Occupied",
               OutMsg.transactionEvent (genId 2) (genId 0)
                 "Started" "RemoteStart" none (some 5) none,
               OutMsg.transactionEvent (genId 3) (genId 0)
                 "Updated" "CablePluggedIn" (some "Charging") none none],
            transactions := ainsert (genId 0)
              { payload0 with remoteStartId := some 5, evseId := some 1 } [],
            connectors := ainsert (0, 0) "Occupied" [((0, 0), "Available")] }
        4 [.send (.requestStartTransaction "m" 5 "Accepted")] := by
  rw [C1_start_accepted gvAny _ 0 "m" _ 5 1 rfl rfl (by decide) (by decide)]
  decide

/-- C2: RequestStopTransaction answers `Accepted` exactly when a Transaction
record for the payload's `transactionId` exists; on acceptance it enqueues
the `Updated`/`RemoteStop` then the `Ended`/`RemoteStop` (reason `Remote`)
TransactionEvents followed by a StatusNotification, deletes the Transaction
record and sets connector `(0, 0)` back to `Available`; on rejection the
store is returned unchanged and only the response is sent. -/
theorem C2_stop_transaction (gv : String → String → String × Option String)
    (s : StoreState) (ids : Nat) (id : String) (p : Payload) :
    (∀ tx, alookup p.transactionId s.transactions = some tx →
      on_message gv s ids (.call id "RequestStopTransaction" p) =
        .ok { s with
              messages := ainsert (genId (ids + 2))
                  (OutMsg.statusNotification (genId (ids + 2)) 1 1 "Available")
                (ainsert (genId (ids + 1))
                  (OutMsg.transactionEvent (genId (ids + 1)) p.transactionId
                    "Ended" "RemoteStop" none none (some "Remote"))
                (ainsert (genId ids)
                  (OutMsg.transactionEvent (genId ids) p.transactionId
                    "Updated" "RemoteStop" none none none) s.messages)),
              queue := s.queue ++
                [OutMsg.transactionEvent (genId ids) p.transactionId
                   "Updated" "RemoteStop" none none none,
                 OutMsg.transactionEvent (genId (ids + 1)) p.transactionId
                   "Ended" "RemoteStop" none none (some "Remote"),
                 OutMsg.statusNotification (genId (ids + 2)) 1 1 "Available"],
              transactions := aerase p.transactionId s.transactions,
              connectors := ainsert (0, 0) "Available" s.connectors }
          (ids + 3) [.send (.requestStopTransaction id "Accepted")] ∧
      alookup p.transactionId (aerase p.transactionId s.transactions) = none) ∧
    (alookup p.transactionId s.transactions = none →
      on_message gv s ids (.call id "RequestStopTransaction" p) =
        .ok s ids [.send (.requestStopTransaction id "Rejected")]) := by
  constructor
  · intro tx htx
    exact ⟨by simp [on_message, handleStopTx, htx], alookup_aerase _ _⟩
  · intro h
    simp [on_message, handleStopTx, h]

/-- Witness for C2: a known transaction id `"t1"` is accepted with the full
cascade, and the same id against an empty transaction store is rejected
with no change. -/
theorem C2_stop_transaction_witness :
    (on_message gvAny { initStore with transactions := [("t1", payload0)] } 0
        (.call "m" "RequestStopTransaction"
          { payload0 with transactionId := "t1" }) =
      .ok { { initStore with transactions := [("t1", payload0)] } with
            messages := ainsert (genId 2)
                (OutMsg.statusNotification (genId 2) 1 1 "Available")
              (ainsert (genId 1)
                (OutMsg.transactionEvent (genId 1) "t1"
                  "Ended" "RemoteStop" none none (some "Remote"))
              (ainsert (genId 0)
                (OutMsg.transactionEvent (genId 0) "t1"
                  "Updated" "RemoteStop" none none none) [])),
            queue :=
              [OutMsg.transactionEvent (genId 0) "t1"
                 "Updated" "RemoteStop" none none none,
               OutMsg.transactionEvent (genId 1) "t1"
                 "Ended" "RemoteStop" none none (some "Remote"),
               OutMsg.statusNotification (genId 2) 1 1 "Available"],
            transactions := aerase "t1" [("t1", payload0)],
            connectors := ainsert (0, 0) "Available" [] }
        3 [.send (.requestStopTransaction "m" "Accepted")] ∧
      alookup "t1" (aerase "t1" [("t1", payload0)]) = none) ∧
    on_message gvAny initStore 0
        (.call "m" "RequestStopTransaction"
          { payload0 with transactionId := "t1" }) =
      .ok initStore 0 [.send (.requestStopTransaction "m" "Rejected")] :=
  ⟨(C2_stop_transaction gvAny _ 0 "m" _).1 payload0 rfl,
   (C2_stop_transaction gvAny initStore 0 "m" _).2 rfl⟩

/-- C3: a CallResult correlated to a pending BootNotification Call with
status `Accepted` sets connector `(0, 0)` to `Available`, enqueues a
StatusNotification, stores `interval * 1000` (seconds converted to the
timer's milliseconds) as the session heartbeat interval and arms the
heartbeat timer with it; with any other status nothing changes and no
effect is produced. -/
theorem C3_boot_response (gv : String → String → String × Option String)
    (s : StoreState) (ids : Nat) (id : String) (p : Payload) (m : OutMsg)
    (hm : alookup id s.messages = some m)
    (ha : m.action = "BootNotification") :
    (∀ n, p.status = "Accepted" → p.interval = some n →
      on_message gv s ids (.callResult id p) =
        .ok { s with
              messages := ainsert (genId ids)
                (OutMsg.statusNotification (genId ids) 1 1 "Available")
                s.messages,
              queue := s.queue ++
                [OutMsg.statusNotification (genId ids) 1 1 "Available"],
              connectors := ainsert (0, 0) "Available" s.connectors,
              heartbeatInterval := n * 1000 }
          (ids + 1) [.armHeartbeat (n * 1000)]) ∧
    (p.status ≠ "Accepted" →
      on_message gv s ids (.callResult id p) = .ok s ids []) := by
  constructor
  · intro n hs hn
    simp [on_message, handleCallResult, hm, ha, hs, hn]
  · intro hs
    simp [on_message, handleCallResult, hm, ha, hs]

/-- Witness for C3: an `Accepted` boot response with `interval = 30` stores
30000 ms and arms the heartbeat; a `Pending` one is a no-op. -/
theorem C3_boot_response_witness :
    on_message gvAny bootStoreEx 0
        (.callResult "b" { payload0 with
          status := "Accepted", interval := some 30 }) =
      .ok { bootStoreEx with
            messages := ainsert (genId 0)
              (OutMsg.statusNotification (genId 0) 1 1 "Available")
              bootStoreEx.messages,
            queue := [OutMsg.statusNotification (genId 0) 1 1 "Available"],
            connectors := ainsert (0, 0) "Available" [],
            heartbeatInterval := 30000 }
        1 [.armHeartbeat 30000] ∧
    on_message gvAny bootStoreEx 0
        (.callResult "b" { payload0 with status := "Pending" }) =
      .ok bootStoreEx 0 [] := by
  have h1 := (C3_boot_response gvAny bootStoreEx 0 "b"
    { payload0 with status := "Accepted", interval := some 30 } bootMsgEx
    (by decide) rfl).1 30 rfl rfl
  have h2 := (C3_boot_response gvAny bootStoreEx 0 "b"
    { payload0 with status := "Pending" } bootMsgEx
    (by decide) rfl).2 (by decide)
  exact ⟨by rw [h1]; decide, h2⟩

/-- C4 (amended): on a queue-fetch tick with a non-empty queue, the head is
popped, transmitted and recorded as LastSent with the current timestamp if
and only if there is no LastSent record or `LastSent.timestamp + 10 < now`
(strictly more than the 10-second window has elapsed); in particular a tick
at exactly `now − LastSent.timestamp = 10` transmits nothing and changes no
state.  The fetch timer is rearmed either way. -/
theorem C4_queue_fetch (s : StoreState) (ids now : Nat)
    (m : OutMsg) (t : List OutMsg) (hq : s.queue = m :: t) :
    ((s.lastSent = none ∨
        ∃ i ts, s.lastSent = some (i, ts) ∧ ts + QUEUE_MESSAGE_EXPIRATION < now) →
      on_timeout_queue_fetch now s ids =
        ({ s with queue := t, lastSent := some (m.msgId, now) }, ids,
         [.transmit m, .armQueueFetch])) ∧
    (∀ i ts, s.lastSent = some (i, ts) →
      ¬ ts + QUEUE_MESSAGE_EXPIRATION < now →
      on_timeout_queue_fetch now s ids = (s, ids, [.armQueueFetch])) := by
  constructor
  · rintro (h | ⟨i, ts, h, hlt⟩)
    · simp [on_timeout_queue_fetch, hq, h]
    · simp [on_timeout_queue_fetch, hq, h, hlt]
  · intro i ts h hlt
    simp [on_timeout_queue_fetch, hq, h, hlt]

/-- Counterexample to C4 as stated: with `LastSent.timestamp = 0` and
`now = 10` — a tick occurring exactly at the 10-second expiry — the code's
gate `timestamp + 10 < now` is false, so the queued message is NOT
transmitted and no state changes, while the claim says such a tick
transmits. -/
theorem C4_counterexample :
    on_timeout_queue_fetch 10
        { initStore with
          queue := [OutMsg.heartbeat "h"], lastSent := some ("x", 0) } 0 =
      ({ initStore with
         queue := [OutMsg.heartbeat "h"], lastSent := some ("x", 0) }, 0,
       [.armQueueFetch]) ∧
    10 - 0 ≥ QUEUE_MESSAGE_EXPIRATION := by
  decide

/-- Witness for C4: no LastSent record transmits; an 11-second-old LastSent
transmits; a 10-second-old one does not. -/
theorem C4_queue_fetch_witness :
    on_timeout_queue_fetch 5
        { initStore with queue := [OutMsg.heartbeat "h"] } 0 =
      ({ initStore with queue := [], lastSent := some ("h", 5) }, 0,
       [.transmit (OutMsg.heartbeat "h"), .armQueueFetch]) ∧
    on_timeout_queue_fetch 11
        { initStore with
          queue := [OutMsg.heartbeat "h"], lastSent := some ("x", 0) } 0 =
      ({ initStore with queue := [], lastSent := some ("h", 11) }, 0,
       [.transmit (OutMsg.heartbeat "h"), .armQueueFetch]) ∧
    on_timeout_queue_fetch 10
        { initStore with
          queue := [OutMsg.heartbeat "h"], lastSent := some ("x", 0) } 0 =
      ({ initStore with
         queue := [OutMsg.heartbeat "h"], lastSent := some ("x", 0) }, 0,
       [.armQueueFetch]) := by
  have h1 := (C4_queue_fetch
    { initStore with queue := [OutMsg.heartbeat "h"] } 0 5
    (OutMsg.heartbeat "h") [] rfl).1 (Or.inl rfl)
  have h2 := (C4_queue_fetch
    { initStore with
      queue := [OutMsg.heartbeat "h"], lastSent := some ("x", 0) } 0 11
    (OutMsg.heartbeat "h") [] rfl).1
    (Or.inr ⟨"x", 0, rfl, by decide⟩)
  have h3 := (C4_queue_fetch
    { initStore with
      queue := [OutMsg.heartbeat "h"], lastSent := some ("x", 0) } 0 10
    (OutMsg.heartbeat "h") [] rfl).2 "x" 0 rfl (by decide)
  exact ⟨by rw [h1]; decide, by rw [h2]; decide, h3⟩

lemma alookup_ainsert_self {α : Type} (k : String) (v : α)
    (l : List (String × α)) : alookup k (ainsert k v l) = some v := by
  simp [ainsert, alookup]

lemma alookup_ainsert_isSome {α : Type} (k k' : String) (v : α)
    (l : List (String × α)) (h : (alookup k l).isSome = true) :
    (alookup k (ainsert k' v l)).isSome = true := by
  by_cases hk : k' = k <;> simp [ainsert, alookup, hk, h]

lemma alookup_ainsert_of_ne {α : Type} {k k' : String} (v : α)
    (l : List (String × α)) (h : ¬ k' = k) :
    alookup k (ainsert k' v l) = alookup k l := by
  simp [ainsert, alookup, h]

/-- Exhaustive shape analysis of a non-panicking `on_message` run: the store
is unchanged, or it is the RequestStartTransaction acceptance store, the
RequestStopTransaction acceptance store, or the BootNotification acceptance
store (the latter with full provenance of the triggering frame). -/
lemma on_message_ok_cases {gv : String → String → String × Option String}
    {s : StoreState} {ids : Nat} {msg : InMsg} {s' : StoreState} {ids' : Nat}
    {eff : List Effect}
    (h : on_message gv s ids msg = .ok s' ids' eff) :
    s' = s ∨
    (∃ p : Payload, ∃ rsid : Nat,
      s' = { s with
             messages := ainsert (genId (ids + 3))
                 (OutMsg.transactionEvent (genId (ids + 3)) (genId ids)
                   "Updated" "CablePluggedIn" (some "Charging") none none)
               (ainsert (genId (ids + 2))
                 (OutMsg.transactionEvent (genId (ids + 2)) (genId ids)
                   "Started" "RemoteStart" none (some rsid) none)
               (ainsert (genId (ids + 1))
                 (OutMsg.statusNotification (genId (ids + 1)) 1 1 "Occupied")
                 s.messages)),
             queue := s.queue ++
               [OutMsg.statusNotification (genId (ids + 1)) 1 1 "Occupied",
                OutMsg.transactionEvent (genId (ids + 2)) (genId ids)
                  "Started" "RemoteStart" none (some rsid) none,
                OutMsg.transactionEvent (genId (ids + 3)) (genId ids)
                  "Updated" "CablePluggedIn" (some "Charging") none none],
             transactions := ainsert (genId ids) p s.transactions,
             connectors := ainsert (0, 0) "Occupied" s.connectors }) ∨
    (∃ txid : String,
      s' = { s with
             messages := ainsert (genId (ids + 2))
                 (OutMsg.statusNotification (genId (ids + 2)) 1 1 "Available")
               (ainsert (genId (ids + 1))
                 (OutMsg.transactionEvent (genId (ids + 1)) txid
                   "Ended" "RemoteStop" none none (some "Remote"))
               (ainsert (genId ids)
                 (OutMsg.transactionEvent (genId ids) txid
                   "Updated" "RemoteStop" none none none) s.messages)),
             queue := s.queue ++
               [OutMsg.transactionEvent (genId ids) txid
                  "Updated" "RemoteStop" none none none,
                OutMsg.transactionEvent (genId (ids + 1)) txid
                  "Ended" "RemoteStop" none none (some "Remote"),
                OutMsg.statusNotification (genId (ids + 2)) 1 1 "Available"],
             transactions := aerase txid s.transactions,
             connectors := ainsert (0, 0) "Available" s.connectors }) ∨
    (∃ rid : String, ∃ p : Payload, ∃ m0 : OutMsg, ∃ n : Nat,
      msg = .callResult rid p ∧ alookup rid s.messages = some m0 ∧
      m0.action = "BootNotification" ∧ p.status = "Accepted" ∧
      p.interval = some n ∧ ids' = ids + 1 ∧
      eff = [.armHeartbeat (n * 1000)] ∧
      s' = { s with
             messages := ainsert (genId ids)
               (OutMsg.statusNotification (genId ids) 1 1 "Available")
               s.messages,
             queue := s.queue ++
               [OutMsg.statusNotification (genId ids) 1 1 "Available"],
             connectors := ainsert (0, 0) "Available" s.connectors,
             heartbeatInterval := n * 1000 }) := by
  cases msg with
  | badJson => simp [on_message] at h
  | nonNumericTypeId => simp [on_message] at h
  | callError id code desc details =>
    simp [on_message] at h
    exact Or.inl h.1.symm
  | unknownTypeId n =>
    simp [on_message] at h
    exact Or.inl h.1.symm
  | call id action p =>
    simp only [on_message] at h
    split at h
    · simp [handleSetVariables] at h
      exact Or.inl h.1.symm
    · split at h
      · simp [handleGetVariables] at h
        exact Or.inl h.1.symm
      · split at h
        · rcases hrs : p.remoteStartId with _ | rsid
          · simp [handleStartTx, hrs] at h
          · rcases hev : p.evseId with _ | ev
            · simp [handleStartTx, hrs, hev] at h
            · by_cases hev0 : ev = 0
              · simp [handleStartTx, hrs, hev, hev0] at h
              · by_cases hst : getConnectorStatus s (ev - 1) 0 = "Available"
                · simp [handleStartTx, hrs, hev, hev0, hst] at h
                  exact Or.inr (Or.inl ⟨p, rsid, h.1.symm⟩)
                · simp [handleStartTx, hrs, hev, hev0, hst] at h
                  exact Or.inl h.1.symm
        · split at h
          · rcases htx : alookup p.transactionId s.transactions with _ | tx
            · simp [handleStopTx, htx] at h
              exact Or.inl h.1.symm
            · simp [handleStopTx, htx] at h
              exact Or.inr (Or.inr (Or.inl ⟨p.transactionId, h.1.symm⟩))
          · simp at h
            exact Or.inl h.1.symm
  | callResult rid p =>
    rcases hm : alookup rid s.messages with _ | m0
    · simp [on_message, handleCallResult, hm] at h
      exact Or.inl h.1.symm
    · by_cases hact : m0.action = "BootNotification"
      · by_cases hst : p.status = "Accepted"
        · rcases hn : p.interval with _ | n
          · simp [on_message, handleCallResult, hm, hact, hst, hn] at h
          · simp [on_message, handleCallResult, hm, hact, hst, hn] at h
            exact Or.inr (Or.inr (Or.inr ⟨rid, p, m0, n, rfl, hm, hact, hst,
              hn, h.2.1.symm, h.2.2.symm, h.1.symm⟩))
        · simp [on_message, handleCallResult, hm, hact, hst] at h
          exact Or.inl h.1.symm
      · simp [on_message, handleCallResult, hm, hact] at h
        exact Or.inl h.1.symm

lemma stepFn_message_ok {gv : String → String → String × Option String}
    {s : StoreState} {ids : Nat} {m : InMsg} {s' : StoreState} {ids' : Nat}
    {eff : List Effect}
    (h : stepFn gv (s, ids) (.message m) = some ((s', ids'), eff)) :
    on_message gv s ids m = .ok s' ids' eff := by
  simp only [stepFn] at h
  cases ho : on_message gv s ids m with
  | ok a b c =>
    rw [ho] at h
    simp only [outcomeToStep, Option.some.injEq, Prod.mk.injEq] at h
    obtain ⟨⟨h1, h2⟩, h3⟩ := h
    rw [h1, h2, h3]
  | panic pm =>
    rw [ho] at h
    simp [outcomeToStep] at h

/-- No reactor turn ever removes a pending-message record: any id present
in the pending map stays present. -/
lemma step_messages_isSome_mono {gv : String → String → String × Option String}
    {c c' : Config} {e : Event} {eff : List Effect}
    (h : stepFn gv c e = some (c', eff)) (k : String)
    (hk : (alookup k c.1.messages).isSome = true) :
    (alookup k c'.1.messages).isSome = true := by
  obtain ⟨s, ids⟩ := c
  obtain ⟨s', ids'⟩ := c'
  cases e with
  | message m =>
    have h' := stepFn_message_ok h
    rcases on_message_ok_cases h' with h1 | ⟨p, rsid, h1⟩ | ⟨txid, h1⟩ |
      ⟨rid, p, m0, n, _, _, _, _, _, _, _, h1⟩
    · rw [h1]; exact hk
    · rw [h1]
      exact alookup_ainsert_isSome _ _ _ _ (alookup_ainsert_isSome _ _ _ _
        (alookup_ainsert_isSome _ _ _ _ hk))
    · rw [h1]
      exact alookup_ainsert_isSome _ _ _ _ (alookup_ainsert_isSome _ _ _ _
        (alookup_ainsert_isSome _ _ _ _ hk))
    · rw [h1]
      exact alookup_ainsert_isSome _ _ _ _ hk
  | heartbeatTimeout =>
    simp only [stepFn, on_timeout_heartbeat, Option.some.injEq,
      Prod.mk.injEq] at h
    obtain ⟨⟨h1, h2⟩, h3⟩ := h
    rw [← h1]
    exact alookup_ainsert_isSome _ _ _ _ hk
  | queueFetchTimeout now =>
    simp only [stepFn, on_timeout_queue_fetch] at h
    split at h
    · simp only [Option.some.injEq, Prod.mk.injEq] at h
      obtain ⟨⟨h1, h2⟩, h3⟩ := h
      rw [← h1]; exact hk
    · split at h
      · simp only [Option.some.injEq, Prod.mk.injEq] at h
        obtain ⟨⟨h1, h2⟩, h3⟩ := h
        rw [← h1]; exact hk
      · simp only [Option.some.injEq, Prod.mk.injEq] at h
        obtain ⟨⟨h1, h2⟩, h3⟩ := h
        rw [← h1]; exact hk

lemma alookup_ainsert_self_isSome {α : Type} (k : String) (v : α)
    (l : List (String × α)) :
    (alookup k (ainsert k v l)).isSome = true := by
  simp [alookup_ainsert_self]

lemma queueCorrelated_step {gv : String → String → String × Option String}
    {c c' : Config} {e : Event} {eff : List Effect}
    (h : stepFn gv c e = some (c', eff)) (hq : QueueCorrelated c.1) :
    QueueCorrelated c'.1 := by
  obtain ⟨s, ids⟩ := c
  obtain ⟨s', ids'⟩ := c'
  cases e with
  | message m =>
    have h' := stepFn_message_ok h
    rcases on_message_ok_cases h' with h1 | ⟨p, rsid, h1⟩ | ⟨txid, h1⟩ |
      ⟨rid, p, m0, n, _, _, _, _, _, _, _, h1⟩
    · rw [h1]; exact hq
    · rw [h1]
      intro x hx
      simp only [List.mem_append, List.mem_cons, List.not_mem_nil,
        or_false] at hx
      rcases hx with hx | hx | hx | hx
      · exact alookup_ainsert_isSome _ _ _ _ (alookup_ainsert_isSome _ _ _ _
          (alookup_ainsert_isSome _ _ _ _ (hq x hx)))
      · subst hx
        exact alookup_ainsert_isSome _ _ _ _ (alookup_ainsert_isSome _ _ _ _
          (alookup_ainsert_self_isSome _ _ _))
      · subst hx
        exact alookup_ainsert_isSome _ _ _ _ (alookup_ainsert_self_isSome _ _ _)
      · subst hx
        exact alookup_ainsert_self_isSome _ _ _
    · rw [h1]
      intro x hx
      simp only [List.mem_append, List.mem_cons, List.not_mem_nil,
        or_false] at hx
      rcases hx with hx | hx | hx | hx
      · exact alookup_ainsert_isSome _ _ _ _ (alookup_ainsert_isSome _ _ _ _
          (alookup_ainsert_isSome _ _ _ _ (hq x hx)))
      · subst hx
        exact alookup_ainsert_isSome _ _ _ _ (alookup_ainsert_isSome _ _ _ _
          (alookup_ainsert_self_isSome _ _ _))
      · subst hx
        exact alookup_ainsert_isSome _ _ _ _ (alookup_ainsert_self_isSome _ _ _)
      · subst hx
        exact alookup_ainsert_self_isSome _ _ _
    · rw [h1]
      intro x hx
      simp only [List.mem_append, List.mem_cons, List.not_mem_nil,
        or_false] at hx
      rcases hx with hx | hx
      · exact alookup_ainsert_isSome _ _ _ _ (hq x hx)
      · subst hx
        exact alookup_ainsert_self_isSome _ _ _
  | heartbeatTimeout =>
    simp only [stepFn, on_timeout_heartbeat, Option.some.injEq,
      Prod.mk.injEq] at h
    obtain ⟨⟨h1, h2⟩, h3⟩ := h
    rw [← h1]
    intro x hx
    simp only [List.mem_append, List.mem_cons, List.not_mem_nil,
      or_false] at hx
    rcases hx with hx | hx
    · exact alookup_ainsert_isSome _ _ _ _ (hq x hx)
    · subst hx
      exact alookup_ainsert_self_isSome _ _ _
  | queueFetchTimeout now =>
    simp only [stepFn, on_timeout_queue_fetch] at h
    split at h
    · simp only [Option.some.injEq, Prod.mk.injEq] at h
      obtain ⟨⟨h1, h2⟩, h3⟩ := h
      rw [← h1]; exact hq
    · rename_i m t heq
      split at h
      · simp only [Option.some.injEq, Prod.mk.injEq] at h
        obtain ⟨⟨h1, h2⟩, h3⟩ := h
        rw [← h1]
        intro x hx
        exact hq x (by rw [heq]; exact List.mem_cons_of_mem _ hx)
      · simp only [Option.some.injEq, Prod.mk.injEq] at h
        obtain ⟨⟨h1, h2⟩, h3⟩ := h
        rw [← h1]; exact hq

/-- C9: in every reachable session configuration, every message in the
delivery queue was stored in the pending-message map under its own id, so
any message the queue policy can ever transmit has a correlation record. -/
theorem C9_queue_correlated (gv : String → String → String × Option String)
    (envModel envVendor envSerial : Option String) (c : Config)
    (h : Reachable gv envModel envVendor envSerial c) :
    QueueCorrelated c.1 := by
  induction h with
  | init =>
    intro x hx
    simp only [openConfig, on_open, initStore, List.nil_append,
      List.mem_cons, List.not_mem_nil, or_false] at hx
    subst hx
    exact alookup_ainsert_self_isSome _ _ _
  | step _ hstep ih => exact queueCorrelated_step hstep ih

/-- Witness for C9 at the initial configuration: the freshly enqueued
BootNotification has its correlation record. -/
theorem C9_queue_correlated_witness :
    (alookup (OutMsg.bootNotification (genId 0) "PowerUp" "Model"
        "Vendor name" none).msgId
      (openConfig none none none).1.messages).isSome = true :=
  C9_queue_correlated gvAny none none none _ Reachable.init
    (OutMsg.bootNotification (genId 0) "PowerUp" "Model" "Vendor name" none)
    (by decide)

/-- C5 (amended): the only reactor turn that assigns the session heartbeat
interval is the boot-notification response handler, on a CallResult whose
id correlates to a pending BootNotification and whose status is `Accepted`
(the interval becoming the payload's `interval * 1000`).  The claim's
further assertion that no execution assigns it a second time is refuted by
the counterexample: the pending record is never deleted, so a duplicate
Accepted boot CallResult assigns it again. -/
theorem C5_interval_only_boot_assigns
    (gv : String → String → String × Option String)
    (c c' : Config) (e : Event) (eff : List Effect)
    (h : stepFn gv c e = some (c', eff))
    (hch : c'.1.heartbeatInterval ≠ c.1.heartbeatInterval) :
    ∃ id p m n, e = .message (.callResult id p) ∧
      alookup id c.1.messages = some m ∧ m.action = "BootNotification" ∧
      p.status = "Accepted" ∧ p.interval = some n ∧
      c'.1.heartbeatInterval = n * 1000 := by
  obtain ⟨s, ids⟩ := c
  obtain ⟨s', ids'⟩ := c'
  cases e with
  | message m =>
    have h' := stepFn_message_ok h
    rcases on_message_ok_cases h' with h1 | ⟨p, rsid, h1⟩ | ⟨txid, h1⟩ |
      ⟨rid, p, m0, n, hmsg, hm, hact, hstt, hn, hids, heff, h1⟩
    · exact absurd (by rw [h1]) hch
    · exact absurd (by rw [h1]) hch
    · exact absurd (by rw [h1]) hch
    · exact ⟨rid, p, m0, n, by rw [hmsg], hm, hact, hstt, hn, by rw [h1]⟩
  | heartbeatTimeout =>
    exfalso
    apply hch
    simp only [stepFn, on_timeout_heartbeat, Option.some.injEq,
      Prod.mk.injEq] at h
    obtain ⟨⟨h1, h2⟩, h3⟩ := h
    rw [← h1]
  | queueFetchTimeout now =>
    exfalso
    apply hch
    simp only [stepFn, on_timeout_queue_fetch] at h
    split at h
    · simp only [Option.some.injEq, Prod.mk.injEq] at h
      obtain ⟨⟨h1, h2⟩, h3⟩ := h
      rw [← h1]
    · split at h
      · simp only [Option.some.injEq, Prod.mk.injEq] at h
        obtain ⟨⟨h1, h2⟩, h3⟩ := h
        rw [← h1]
      · simp only [Option.some.injEq, Prod.mk.injEq] at h
        obtain ⟨⟨h1, h2⟩, h3⟩ := h
        rw [← h1]

/-- Counterexample to C5 as stated: in the reachable execution that opens
the session and then receives the same boot CallResult id twice (statuses
Accepted, intervals 30 then 60), the heartbeat interval is assigned twice —
0, then 30000, then 60000. -/
theorem C5_counterexample :
    (openConfig none none none).1.heartbeatInterval = 0 ∧
    (stepFn gvAny (openConfig none none none) (c5Event 30)).isSome = true ∧
    c5Step1.1.heartbeatInterval = 30000 ∧
    (stepFn gvAny c5Step1 (c5Event 60)).isSome = true ∧
    c5Step2.1.heartbeatInterval = 60000 := by
  decide

/-- Witness for C5's amended theorem at the first assignment of the
counterexample execution. -/
theorem C5_interval_only_boot_assigns_witness :
    ∃ id p m n, c5Event 30 = .message (.callResult id p) ∧
      alookup id (openConfig none none none).1.messages = some m ∧
      m.action = "BootNotification" ∧ p.status = "Accepted" ∧
      p.interval = some n ∧ c5Step1.1.heartbeatInterval = n * 1000 :=
  C5_interval_only_boot_assigns gvAny (openConfig none none none) c5Step1
    (c5Event 30) [.armHeartbeat 30000] (by decide) (by decide)

/-- C10: no operation deletes a pending-message record — any id present in
the pending map is still present after every reactor turn — and after a
BootNotification CallResult is correlated and handled, the record survives
(the freshly generated StatusNotification id being distinct from it), so
the same CallResult delivered a second time dispatches the boot response
handler again: it re-runs the acceptance effects and arms an additional
heartbeat timer. -/
theorem C10_pending_retained :
    (∀ (gv : String → String → String × Option String) (c c' : Config)
        (e : Event) (eff : List Effect),
      stepFn gv c e = some (c', eff) →
      ∀ k, (alookup k c.1.messages).isSome = true →
        (alookup k c'.1.messages).isSome = true) ∧
    (∀ (gv : String → String → String × Option String) (s : StoreState)
        (ids : Nat) (id : String) (p : Payload) (m0 : OutMsg) (n : Nat),
      alookup id s.messages = some m0 → m0.action = "BootNotification" →
      p.status = "Accepted" → p.interval = some n → id ≠ genId ids →
      stepFn gv (s, ids) (.message (.callResult id p)) =
        some (({ s with
                 messages := ainsert (genId ids)
                   (OutMsg.statusNotification (genId ids) 1 1 "Available")
                   s.messages,
                 queue := s.queue ++
                   [OutMsg.statusNotification (genId ids) 1 1 "Available"],
                 connectors := ainsert (0, 0) "Available" s.connectors,
                 heartbeatInterval := n * 1000 }, ids + 1),
              [.armHeartbeat (n * 1000)]) ∧
      alookup id (ainsert (genId ids)
        (OutMsg.statusNotification (genId ids) 1 1 "Available")
        s.messages) = some m0 ∧
      stepFn gv
          ({ s with
             messages := ainsert (genId ids)
               (OutMsg.statusNotification (genId ids) 1 1 "Available")
               s.messages,
             queue := s.queue ++
               [OutMsg.statusNotification (genId ids) 1 1 "Available"],
             connectors := ainsert (0, 0) "Available" s.connectors,
             heartbeatInterval := n * 1000 }, ids + 1)
          (.message (.callResult id p)) =
        some (({ s with
                 messages := ainsert (genId (ids + 1))
                     (OutMsg.statusNotification (genId (ids + 1)) 1 1
                       "Available")
                   (ainsert (genId ids)
                     (OutMsg.statusNotification (genId ids) 1 1 "Available")
                     s.messages),
                 queue := (s.queue ++
                     [OutMsg.statusNotification (genId ids) 1 1 "Available"]) ++
                   [OutMsg.statusNotification (genId (ids + 1)) 1 1
                     "Available"],
                 connectors := ainsert (0, 0) "Available"
                   (ainsert (0, 0) "Available" s.connectors),
                 heartbeatInterval := n * 1000 }, ids + 2),
              [.armHeartbeat (n * 1000)])) := by
  constructor
  · intro gv c c' e eff h k hk
    exact step_messages_isSome_mono h k hk
  · intro gv s ids id p m0 n hm hact hstt hn hne
    have hm1 : alookup id (ainsert (genId ids)
        (OutMsg.statusNotification (genId ids) 1 1 "Available")
        s.messages) = some m0 := by
      rw [alookup_ainsert_of_ne _ _ (fun hc => hne hc.symm)]
      exact hm
    refine ⟨?_, hm1, ?_⟩
    · simp [stepFn, on_message, handleCallResult, hm, hact, hstt, hn,
        outcomeToStep]
    · simp [stepFn, on_message, handleCallResult, hm1, hact, hstt, hn,
        outcomeToStep]

/-- Witness for C10: the initial boot record `"b"` survives its own
correlation, exercised at a concrete store. -/
theorem C10_pending_retained_witness :
    stepFn gvAny (bootStoreEx, 0)
        (.message (.callResult "b"
          { payload0 with status := "Accepted", interval := some 30 })) =
      some (({ bootStoreEx with
               messages := ainsert (genId 0)
                 (OutMsg.statusNotification (genId 0) 1 1 "Available")
                 bootStoreEx.messages,
               queue := bootStoreEx.queue ++
                 [OutMsg.statusNotification (genId 0) 1 1 "Available"],
               connectors := ainsert (0, 0) "Available"
                 bootStoreEx.connectors,
               heartbeatInterval := 30000 }, 1),
            [.armHeartbeat 30000]) ∧
    (alookup "b" (ainsert (genId 0)
      (OutMsg.statusNotification (genId 0) 1 1 "Available")
      bootStoreEx.messages)).isSome = true := by
  have h2 := C10_pending_retained.2 gvAny bootStoreEx 0 "b"
    { payload0 with status := "Accepted", interval := some 30 }
    bootMsgEx 30 (by decide) rfl rfl rfl (by decide)
  refine ⟨h2.1, ?_⟩
  have h1 := C10_pending_retained.1 gvAny (bootStoreEx, 0) _ _ _ h2.1 "b"
    (by decide)
  exact h1

end StationEmulator
